import Mathlib

/-!
Verification of the shapeshift masonry layout engine
(src/core/jquery.shapeshift.js).

Numeric layout quantities (widths, heights, gutters, coordinates) are
modelled as rationals `ℚ`.  JavaScript array indexing results are `Int`
(`Array.prototype.indexOf` returns `-1` when the value is absent).  The
per-instance fields of the plugin object are collected in `PluginState`;
fields that start out as JavaScript `undefined` (`containerWidth`,
`colCount`) are modelled with `Option`.  The plugin has no error channel:
every source function returns normally, so every embedded function is
total.  A ghost counter `packCount` records how many `update` passes
(`_pack` + `render`) have run; `render` itself only forwards the already
stored `(x, y)` pairs to the placement sink and changes no state.
-/

namespace Shapeshift

/-- One managed child element: its registration index, its measured width
(`$el.width()`) and height (`$el.height()`, measured in `_addNewChild`),
and the output coordinates `x`, `y` written by `_packChild`. -/
structure Child where
  index : Nat
  width : ℚ
  height : ℚ
  x : ℚ
  y : ℚ
deriving DecidableEq

/-- `Math.min.apply(null, array)` over a list of rationals.  `none` stands
for the `Infinity` that JavaScript returns on an empty argument list. -/
def jsMin : List ℚ → Option ℚ
  | [] => none
  | v :: rest =>
    some (match jsMin rest with
      | none => v
      | some m => min v m)

/-- `_fitMinIndex(array)`: `array.indexOf(Math.min.apply(null, array))`.
On an empty array `Math.min` yields `Infinity`, which `indexOf` does not
find, so the result is `-1`. -/
def fitMinIndex (array : List ℚ) : Int :=
  match jsMin array with
  | none => -1
  | some m => (array.indexOf m : Int)

/-- `_packChild(child)`: pick the column with the least accumulated
height, store `y` (the column height) and
`x = column * child.$el.width() + column * gutterX` on the child, then
grow the chosen column by `child.height + gutterY`.  The source indexes
`colHeights` with the raw `indexOf` result; for a non-empty height array
that index is always in bounds (proved below), which is the regime the
`Int.toNat`/`getD` reading relies on. -/
def packChild (gutterX gutterY : ℚ) (colHeights : List ℚ) (child : Child) :
    Child × List ℚ :=
  let column := fitMinIndex colHeights
  let c := column.toNat
  let padding_offset := (column : ℚ) * gutterX
  ({ child with
      y := colHeights.getD c 0
      x := (column : ℚ) * child.width + padding_offset },
    colHeights.set c (colHeights.getD c 0 + child.height + gutterY))

/-- `_pack()`: `children.forEach(this._packChild)`, threading the mutated
`colHeights` array through the traversal. -/
def packList (gutterX gutterY : ℚ) (colHeights : List ℚ) :
    List Child → List Child × List ℚ
  | [] => ([], colHeights)
  | child :: rest =>
    let r := packChild gutterX gutterY colHeights child
    let rs := packList gutterX gutterY r.2 rest
    (r.1 :: rs.1, rs.2)

/-- `_getColumnCount()`: add one gutter width of slack to the container
width and floor-divide by the adjusted column width. -/
def getColumnCount (containerWidth colWidth gutterX : ℚ) : Int :=
  let available_width := containerWidth + gutterX
  let adjusted_col_width := colWidth + gutterX
  Int.floor (available_width / adjusted_col_width)

/-- `_addNewChild(el, index)`: push a record holding the index and the
measured height (and, for the later `_packChild` width lookup, the
measured width) with zero-initialised coordinates. -/
def addNewChild (children : List Child) (index : Nat) (width height : ℚ) :
    List Child :=
  children ++ [{ index := index, width := width, height := height, x := 0, y := 0 }]

/-- The per-instance fields of the plugin object that the layout core
reads and writes. -/
structure PluginState where
  containerWidth : Option ℚ
  colWidth : ℚ
  gutterX : ℚ
  gutterY : ℚ
  colCount : Option Int
  colHeights : List ℚ
  children : List Child
  packCount : Nat
deriving DecidableEq

/-- `update()`: `this._pack(); this.render();` — repack every child and
hand the coordinates to the placement sink (ghost-counted). -/
def update (s : PluginState) : PluginState :=
  let r := packList s.gutterX s.gutterY s.colHeights s.children
  { s with children := r.1, colHeights := r.2, packCount := s.packCount + 1 }

/-- `_resetColHeights()`: rebuild `colHeights` with one zero entry per
column of `_getColumnCount()` (none when that count is not positive,
matching the `for` loop) and store the rebuilt length as `colCount`. -/
def resetColHeights (s : PluginState) : PluginState :=
  let columns := getColumnCount (s.containerWidth.getD 0) s.colWidth s.gutterX
  let colHeights : List ℚ := List.replicate columns.toNat 0
  { s with colHeights := colHeights, colCount := some (colHeights.length : Int) }

/-- `_columnCountChanged()`: reset the column heights, then `update()`. -/
def columnCountChanged (s : PluginState) : PluginState :=
  update (resetColHeights s)

/-- `_containerWidthChanged()`: recompute the column count from the (just
stored) container width; only when it differs from the stored `colCount`
store it and run `_columnCountChanged()`. -/
def containerWidthChanged (s : PluginState) : PluginState :=
  let column_count := getColumnCount (s.containerWidth.getD 0) s.colWidth s.gutterX
  if some column_count = s.colCount then s
  else columnCountChanged { s with colCount := some column_count }

/-- `_updateContainerWidth()`: re-measure the container width
(`container_width` is the fresh measurement); if it differs from the
cached `this.containerWidth`, store it and run
`_containerWidthChanged()`; otherwise do nothing. -/
def updateContainerWidth (container_width : ℚ) (s : PluginState) : PluginState :=
  if some container_width = s.containerWidth then s
  else containerWidthChanged { s with containerWidth := some container_width }

/-- The plugin state right after `_setupGlobals()` and `_parseChildren()`:
empty height array, cached gutters, `colWidth` measured from the first
child, `containerWidth` and `colCount` still `undefined`. -/
def initState (colWidth gutterX gutterY : ℚ) (children : List Child) :
    PluginState :=
  { containerWidth := none
    colWidth := colWidth
    gutterX := gutterX
    gutterY := gutterY
    colCount := none
    colHeights := []
    children := children
    packCount := 0 }

/-- `init()`: set up the globals and children, then run
`_updateContainerWidth()` with the first container-width measurement. -/
def init (colWidth gutterX gutterY container_width : ℚ)
    (children : List Child) : PluginState :=
  updateContainerWidth container_width (initState colWidth gutterX gutterY children)

theorem jsMin_eq_none_iff (a : List ℚ) : jsMin a = none ↔ a = [] := by
  cases a <;> simp [jsMin]

theorem jsMin_mem {a : List ℚ} : ∀ {m : ℚ}, jsMin a = some m → m ∈ a := by
  induction a with
  | nil => intro m h; simp [jsMin] at h
  | cons v rest ih =>
    intro m h
    rw [jsMin] at h
    cases hr : jsMin rest with
    | none =>
      rw [hr] at h
      simp only [Option.some.injEq] at h
      subst h
      exact List.mem_cons_self v rest
    | some m2 =>
      rw [hr] at h
      simp only [Option.some.injEq] at h
      subst h
      rcases le_total v m2 with hle | hle
      · rw [min_eq_left hle]; exact List.mem_cons_self v rest
      · rw [min_eq_right hle]; exact List.mem_cons_of_mem v (ih hr)

theorem jsMin_le {a : List ℚ} : ∀ {m : ℚ}, jsMin a = some m → ∀ x ∈ a, m ≤ x := by
  induction a with
  | nil => intro m h; simp [jsMin] at h
  | cons v rest ih =>
    intro m h x hx
    rw [jsMin] at h
    cases hr : jsMin rest with
    | none =>
      have hrest : rest = [] := (jsMin_eq_none_iff rest).mp hr
      subst hrest
      rw [hr] at h
      simp only [Option.some.injEq] at h
      subst h
      simp only [List.mem_singleton] at hx
      subst hx
      exact le_refl x
    | some m2 =>
      rw [hr] at h
      simp only [Option.some.injEq] at h
      subst h
      rcases List.mem_cons.mp hx with rfl | hx2
      · exact min_le_left _ _
      · exact le_trans (min_le_right _ _) (ih hr x hx2)

theorem getD_eq_get (l : List ℚ) (i : Nat) (h : i < l.length) :
    l.getD i 0 = l.get ⟨i, h⟩ := by
  induction l generalizing i with
  | nil => simp at h
  | cons x xs ih =>
    cases i with
    | zero => rfl
    | succ n =>
      have hn : n < xs.length := by simpa using h
      exact ih n hn

theorem getD_ne_of_lt_indexOf (l : List ℚ) (m : ℚ) :
    ∀ j : Nat, j < l.indexOf m → l.getD j 0 ≠ m := by
  induction l with
  | nil => intro j hj; simp [List.indexOf_nil] at hj
  | cons x xs ih =>
    intro j hj
    by_cases hx : x = m
    · rw [List.indexOf_cons_eq xs hx] at hj
      exact absurd hj (Nat.not_lt_zero j)
    · rw [List.indexOf_cons_ne xs hx] at hj
      cases j with
      | zero => simpa using hx
      | succ n => exact ih n (Nat.lt_of_succ_lt_succ hj)

theorem fitMinIndex_spec (a : List ℚ) (h : a ≠ []) :
    ∃ i : Nat, fitMinIndex a = (i : Int) ∧ i < a.length ∧
      (∀ j, j < a.length → a.getD i 0 ≤ a.getD j 0) ∧
      ∀ j, j < i → a.getD i 0 < a.getD j 0 := by
  obtain ⟨m, hm⟩ : ∃ m, jsMin a = some m := by
    cases hj : jsMin a with
    | none => exact absurd ((jsMin_eq_none_iff a).mp hj) h
    | some m => exact ⟨m, rfl⟩
  have hmem : m ∈ a := jsMin_mem hm
  have hilt : a.indexOf m < a.length := List.indexOf_lt_length.mpr hmem
  have hval : a.getD (a.indexOf m) 0 = m := by
    rw [getD_eq_get a _ hilt]
    exact List.indexOf_get hilt
  refine ⟨a.indexOf m, ?_, hilt, ?_, ?_⟩
  · simp only [fitMinIndex, hm]
  · intro j hj
    rw [hval, getD_eq_get a j hj]
    exact jsMin_le hm _ (List.get_mem a j hj)
  · intro j hj
    have hne : a.getD j 0 ≠ m := getD_ne_of_lt_indexOf a m j hj
    have hle : m ≤ a.getD j 0 := by
      rw [getD_eq_get a j (lt_trans hj hilt)]
      exact jsMin_le hm _ (List.get_mem a j (lt_trans hj hilt))
    rw [hval]
    exact lt_of_le_of_ne hle (Ne.symm hne)

theorem packChild_eq (gutterX gutterY : ℚ) (a : List ℚ) (c : Child)
    (i : Nat) (hfit : fitMinIndex a = (i : Int)) :
    packChild gutterX gutterY a c =
      ({ c with
          y := a.getD i 0
          x := (i : ℚ) * c.width + (i : ℚ) * gutterX },
        a.set i (a.getD i 0 + c.height + gutterY)) := by
  simp [packChild, hfit]

theorem packChild_colHeights_length (gutterX gutterY : ℚ) (a : List ℚ) (c : Child) :
    ((packChild gutterX gutterY a c).2).length = a.length := by
  simp [packChild]

theorem sum_set_getD (l : List ℚ) (i : Nat) (d : ℚ) (h : i < l.length) :
    (l.set i (l.getD i 0 + d)).sum = l.sum + d := by
  induction l generalizing i with
  | nil => simp at h
  | cons x xs ih =>
    cases i with
    | zero =>
      show ((x + d) :: xs).sum = (x :: xs).sum + d
      rw [List.sum_cons, List.sum_cons]
      ring
    | succ n =>
      have hn : n < xs.length := by simpa using h
      show (x :: xs.set n (xs.getD n 0 + d)).sum = (x :: xs).sum + d
      rw [List.sum_cons, List.sum_cons, ih n hn]
      ring

theorem packChild_sum (gutterX gutterY : ℚ) (a : List ℚ) (c : Child) (h : a ≠ []) :
    (packChild gutterX gutterY a c).2.sum = a.sum + (c.height + gutterY) := by
  obtain ⟨i, hfit, hilt, -, -⟩ := fitMinIndex_spec a h
  rw [packChild_eq gutterX gutterY a c i hfit]
  show (a.set i (a.getD i 0 + c.height + gutterY)).sum = a.sum + (c.height + gutterY)
  rw [add_assoc, sum_set_getD a i _ hilt]

theorem packList_colHeights_length (gutterX gutterY : ℚ) (cs : List Child) :
    ∀ a : List ℚ, (packList gutterX gutterY a cs).2.length = a.length := by
  induction cs with
  | nil => intro a; rfl
  | cons c rest ih =>
    intro a
    show (packList gutterX gutterY (packChild gutterX gutterY a c).2 rest).2.length = a.length
    rw [ih, packChild_colHeights_length]

theorem packList_sum (gutterX gutterY : ℚ) (cs : List Child) :
    ∀ a : List ℚ, a ≠ [] →
      (packList gutterX gutterY a cs).2.sum =
        a.sum + (cs.map (fun c => c.height + gutterY)).sum := by
  induction cs with
  | nil => intro a _; simp [packList]
  | cons c rest ih =>
    intro a h
    have h2 : (packChild gutterX gutterY a c).2 ≠ [] := by
      rw [← List.length_pos, packChild_colHeights_length]
      exact List.length_pos.mpr h
    show (packList gutterX gutterY (packChild gutterX gutterY a c).2 rest).2.sum = _
    rw [ih _ h2, packChild_sum gutterX gutterY a c h]
    simp only [List.map_cons, List.sum_cons]
    ring

/-- Claim C1: for 5 items of width 100 and heights [50, 80, 30, 60, 40],
gutters (20, 10) and container width 340, the column count is
floor((340+20)/120) = 3, and packing in index order from all-zero column
heights yields item0 (0,0), item1 (120,0), item2 (240,0), item3 (240,40),
item4 (0,60). -/
theorem c1_end_to_end :
    getColumnCount 340 100 20 = 3 ∧
    (packList 20 10 [0, 0, 0]
        [⟨0, 100, 50, 0, 0⟩, ⟨1, 100, 80, 0, 0⟩, ⟨2, 100, 30, 0, 0⟩,
         ⟨3, 100, 60, 0, 0⟩, ⟨4, 100, 40, 0, 0⟩]).1.map (fun c => (c.x, c.y)) =
      [(0, 0), (120, 0), (240, 0), (240, 40), (0, 60)] := by
  constructor
  · norm_num [getColumnCount]
  · have h0 : packChild 20 10 [0, 0, 0] ⟨0, 100, 50, 0, 0⟩ =
        (⟨0, 100, 50, 0, 0⟩, [60, 0, 0]) := by
      rw [packChild, show fitMinIndex [0, 0, 0] = 0 from by decide]
      norm_num
    have h1 : packChild 20 10 [60, 0, 0] ⟨1, 100, 80, 0, 0⟩ =
        (⟨1, 100, 80, 120, 0⟩, [60, 90, 0]) := by
      rw [packChild, show fitMinIndex [60, 0, 0] = 1 from by decide]
      norm_num
    have h2 : packChild 20 10 [60, 90, 0] ⟨2, 100, 30, 0, 0⟩ =
        (⟨2, 100, 30, 240, 0⟩, [60, 90, 40]) := by
      rw [packChild, show fitMinIndex [60, 90, 0] = 2 from by decide,
        show Int.toNat 2 = 2 from by decide]
      norm_num
    have h3 : packChild 20 10 [60, 90, 40] ⟨3, 100, 60, 0, 0⟩ =
        (⟨3, 100, 60, 240, 40⟩, [60, 90, 110]) := by
      rw [packChild, show fitMinIndex [60, 90, 40] = 2 from by decide,
        show Int.toNat 2 = 2 from by decide]
      norm_num
    have h4 : packChild 20 10 [60, 90, 110] ⟨4, 100, 40, 0, 0⟩ =
        (⟨4, 100, 40, 0, 60⟩, [110, 90, 110]) := by
      rw [packChild, show fitMinIndex [60, 90, 110] = 0 from by decide]
      norm_num
    simp only [packList, h0, h1, h2, h3, h4, List.map_cons, List.map_nil]

/-- Claim C2 (amended): under the configuration domain of the spec
(non-negative container width and horizontal gutter, positive divisor
`colWidth + gutterX`), the computed column count equals
floor((containerWidth + gutterX) / (colWidth + gutterX)) and is a
non-negative integer; with itemWidth 100 and gutterX 10 the count is 3 at
containerWidth 320 and 2 at 319.  Unrestricted, the count can be
negative (see the counterexample). -/
theorem c2_column_count :
    (∀ containerWidth colWidth gutterX : ℚ,
      0 ≤ containerWidth → 0 ≤ gutterX → 0 < colWidth + gutterX →
      getColumnCount containerWidth colWidth gutterX =
        Int.floor ((containerWidth + gutterX) / (colWidth + gutterX)) ∧
      0 ≤ getColumnCount containerWidth colWidth gutterX) ∧
    getColumnCount 320 100 10 = 3 ∧ getColumnCount 319 100 10 = 2 := by
  refine ⟨?_, by norm_num [getColumnCount], by norm_num [getColumnCount]⟩
  intro cw colw gx hcw hgx hpos
  refine ⟨rfl, ?_⟩
  have hr : (0 : ℚ) ≤ (cw + gx) / (colw + gx) :=
    div_nonneg (add_nonneg hcw hgx) (le_of_lt hpos)
  show (0 : ℤ) ≤ Int.floor ((cw + gx) / (colw + gx))
  exact Int.le_floor.mpr (by exact_mod_cast hr)

/-- Witness for C2 at containerWidth 340, itemWidth 100, gutterX 20. -/
theorem c2_witness :
    getColumnCount 340 100 20 = Int.floor (((340 : ℚ) + 20) / (100 + 20)) ∧
    0 ≤ getColumnCount 340 100 20 :=
  c2_column_count.1 340 100 20 (by norm_num) (by norm_num) (by norm_num)

/-- Claim C2 counterexample: the claim quantifies over every
containerWidth, itemWidth and gutterX, but at containerWidth 340,
itemWidth 100, gutterX -200 the computed count is -2, which is not >= 0. -/
theorem c2_counterexample :
    getColumnCount 340 100 (-200) = -2 ∧ ¬ 0 ≤ getColumnCount 340 100 (-200) := by
  norm_num [getColumnCount]

/-- Claim C3: for every non-empty column-height array the chosen column
is the lowest-indexed one among those attaining the minimum height
(strictly smaller than every earlier entry, no larger than every entry);
for heights [50, 30, 30] the chosen column is 1. -/
theorem c3_greedy_tie_break :
    (∀ a : List ℚ, a ≠ [] →
      ∃ i : Nat, fitMinIndex a = (i : Int) ∧ i < a.length ∧
        (∀ j, j < a.length → a.getD i 0 ≤ a.getD j 0) ∧
        ∀ j, j < i → a.getD i 0 < a.getD j 0) ∧
    fitMinIndex [50, 30, 30] = 1 :=
  ⟨fitMinIndex_spec, by decide⟩

/-- Witness for C3 at the concrete heights [50, 30, 30]. -/
theorem c3_witness :
    ∃ i : Nat, fitMinIndex ([50, 30, 30] : List ℚ) = (i : Int) ∧
      i < ([50, 30, 30] : List ℚ).length ∧
      (∀ j, j < ([50, 30, 30] : List ℚ).length →
        ([50, 30, 30] : List ℚ).getD i 0 ≤ ([50, 30, 30] : List ℚ).getD j 0) ∧
      ∀ j, j < i → ([50, 30, 30] : List ℚ).getD i 0 < ([50, 30, 30] : List ℚ).getD j 0 :=
  c3_greedy_tie_break.1 [50, 30, 30] (by decide)

/-- Claim C4: the pack pass is deterministic — for a fixed ordered item
sequence, column count and gutters, any two pack passes starting from
all-zero column heights assign identical coordinates to every item. -/
theorem c4_pack_deterministic (gutterX gutterY : ℚ) (n : Nat) (items : List Child)
    (s1 s2 : List ℚ) (h1 : s1 = List.replicate n 0) (h2 : s2 = List.replicate n 0) :
    (packList gutterX gutterY s1 items).1.map (fun c => (c.x, c.y)) =
      (packList gutterX gutterY s2 items).1.map (fun c => (c.x, c.y)) := by
  subst h1
  subst h2
  rfl

/-- Witness for C4 at a concrete item list and 3 zeroed columns. -/
theorem c4_witness :
    (packList 20 10 (List.replicate 3 0) [⟨0, 100, 50, 0, 0⟩]).1.map (fun c => (c.x, c.y)) =
      (packList 20 10 (List.replicate 3 0) [⟨0, 100, 50, 0, 0⟩]).1.map (fun c => (c.x, c.y)) :=
  c4_pack_deterministic 20 10 3 [⟨0, 100, 50, 0, 0⟩]
    (List.replicate 3 0) (List.replicate 3 0) rfl rfl

/-- Claim C9: on a non-empty column-height array `_fitMinIndex` returns
the first minimum position, a valid index, so `_packChild` assigns as `y`
an existing column height and a well-defined `x`; on an empty array it
returns -1, which is not a valid index (the precondition of at least one
column is necessary). -/
theorem c9_pack_precondition :
    (∀ (gutterX gutterY : ℚ) (a : List ℚ) (c : Child), a ≠ [] →
      ∃ i : Nat, fitMinIndex a = (i : Int) ∧ i < a.length ∧
        (packChild gutterX gutterY a c).1.y = a.getD i 0 ∧
        (packChild gutterX gutterY a c).1.x = (i : ℚ) * c.width + (i : ℚ) * gutterX) ∧
    fitMinIndex [] = -1 ∧ ∀ i : Nat, (i : Int) ≠ fitMinIndex [] := by
  refine ⟨?_, rfl, ?_⟩
  · intro gutterX gutterY a c h
    obtain ⟨i, hfit, hilt, -, -⟩ := fitMinIndex_spec a h
    refine ⟨i, hfit, hilt, ?_, ?_⟩
    · rw [packChild_eq gutterX gutterY a c i hfit]
    · rw [packChild_eq gutterX gutterY a c i hfit]
  · intro i
    show (i : Int) ≠ -1
    omega

/-- Witness for C9 at the concrete heights [50, 30, 30] and one item. -/
theorem c9_witness :
    ∃ i : Nat, fitMinIndex ([50, 30, 30] : List ℚ) = (i : Int) ∧
      i < ([50, 30, 30] : List ℚ).length ∧
      (packChild 20 10 [50, 30, 30] ⟨3, 100, 60, 0, 0⟩).1.y =
        ([50, 30, 30] : List ℚ).getD i 0 ∧
      (packChild 20 10 [50, 30, 30] ⟨3, 100, 60, 0, 0⟩).1.x =
        (i : ℚ) * (⟨3, 100, 60, 0, 0⟩ : Child).width + (i : ℚ) * 20 :=
  c9_pack_precondition.1 20 10 [50, 30, 30] ⟨3, 100, 60, 0, 0⟩ (by decide)

theorem getD_nil (n : Nat) (d : ℚ) : List.getD [] n d = d := rfl

theorem set_nil (n : Nat) (v : ℚ) : List.set [] n v = [] := rfl

theorem packChild_height (gutterX gutterY : ℚ) (a : List ℚ) (c : Child) :
    (packChild gutterX gutterY a c).1.height = c.height := rfl

theorem packList_map_height (gutterX gutterY : ℚ) (cs : List Child) :
    ∀ a : List ℚ,
      (packList gutterX gutterY a cs).1.map (fun c => c.height + gutterY) =
        cs.map (fun c => c.height + gutterY) := by
  induction cs with
  | nil => intro a; rfl
  | cons c rest ih =>
    intro a
    show ((packChild gutterX gutterY a c).1 ::
        (packList gutterX gutterY (packChild gutterX gutterY a c).2 rest).1).map
          (fun c => c.height + gutterY) =
      (c :: rest).map (fun c => c.height + gutterY)
    simp only [List.map_cons, ih, packChild_height]

/-- Claim C5: a resize notification that re-measures a container width
equal to the stored one is a complete no-op: the state (stored width,
column count, height mapping, every coordinate) is unchanged and no
pack or render pass runs (the pass counter is unchanged). -/
theorem c5_resize_noop (s : PluginState) (w : ℚ) (h : s.containerWidth = some w) :
    updateContainerWidth w s = s ∧
    (updateContainerWidth w s).colHeights = s.colHeights ∧
    (updateContainerWidth w s).children = s.children ∧
    (updateContainerWidth w s).packCount = s.packCount := by
  have hmain : updateContainerWidth w s = s := by
    rw [updateContainerWidth, if_pos h.symm]
  exact ⟨hmain, by rw [hmain], by rw [hmain], by rw [hmain]⟩

/-- Witness for C5 at a concrete stable state. -/
theorem c5_witness :
    updateContainerWidth 340
        ⟨some 340, 100, 20, 10, some 3, [50, 60, 70], [⟨0, 100, 50, 0, 0⟩], 1⟩ =
      (⟨some 340, 100, 20, 10, some 3, [50, 60, 70], [⟨0, 100, 50, 0, 0⟩], 1⟩ :
        PluginState) ∧
    (updateContainerWidth 340
        ⟨some 340, 100, 20, 10, some 3, [50, 60, 70], [⟨0, 100, 50, 0, 0⟩], 1⟩).colHeights =
      [50, 60, 70] ∧
    (updateContainerWidth 340
        ⟨some 340, 100, 20, 10, some 3, [50, 60, 70], [⟨0, 100, 50, 0, 0⟩], 1⟩).children =
      [⟨0, 100, 50, 0, 0⟩] ∧
    (updateContainerWidth 340
        ⟨some 340, 100, 20, 10, some 3, [50, 60, 70], [⟨0, 100, 50, 0, 0⟩], 1⟩).packCount =
      1 :=
  c5_resize_noop ⟨some 340, 100, 20, 10, some 3, [50, 60, 70], [⟨0, 100, 50, 0, 0⟩], 1⟩
    340 rfl

/-- Claim C6: a resize to a different width whose recomputed column count
equals the stored one only stores the new width: the height mapping, the
children (with their coordinates) and the pass counter are unchanged and
no pack or render pass runs. -/
theorem c6_width_change_same_column_count (s : PluginState) (w : ℚ)
    (hne : some w ≠ s.containerWidth)
    (hcc : s.colCount = some (getColumnCount w s.colWidth s.gutterX)) :
    updateContainerWidth w s = { s with containerWidth := some w } ∧
    (updateContainerWidth w s).containerWidth = some w ∧
    (updateContainerWidth w s).colHeights = s.colHeights ∧
    (updateContainerWidth w s).children = s.children ∧
    (updateContainerWidth w s).packCount = s.packCount := by
  have hmain : updateContainerWidth w s = { s with containerWidth := some w } := by
    rw [updateContainerWidth, if_neg hne, containerWidthChanged]
    dsimp only [Option.getD_some]
    rw [if_pos hcc.symm]
  exact ⟨hmain, by rw [hmain], by rw [hmain], by rw [hmain], by rw [hmain]⟩

/-- Witness for C6: width 340 → 350 keeps 3 columns
(floor(370/120) = 3) and the packed state survives. -/
theorem c6_witness :
    updateContainerWidth 350
        ⟨some 340, 100, 20, 10, some 3, [50, 60, 70], [⟨0, 100, 50, 5, 6⟩], 2⟩ =
      (⟨some 350, 100, 20, 10, some 3, [50, 60, 70], [⟨0, 100, 50, 5, 6⟩], 2⟩ :
        PluginState) ∧
    (updateContainerWidth 350
        ⟨some 340, 100, 20, 10, some 3, [50, 60, 70], [⟨0, 100, 50, 5, 6⟩], 2⟩).containerWidth =
      some 350 ∧
    (updateContainerWidth 350
        ⟨some 340, 100, 20, 10, some 3, [50, 60, 70], [⟨0, 100, 50, 5, 6⟩], 2⟩).colHeights =
      [50, 60, 70] ∧
    (updateContainerWidth 350
        ⟨some 340, 100, 20, 10, some 3, [50, 60, 70], [⟨0, 100, 50, 5, 6⟩], 2⟩).children =
      [⟨0, 100, 50, 5, 6⟩] ∧
    (updateContainerWidth 350
        ⟨some 340, 100, 20, 10, some 3, [50, 60, 70], [⟨0, 100, 50, 5, 6⟩], 2⟩).packCount =
      2 :=
  c6_width_change_same_column_count
    ⟨some 340, 100, 20, 10, some 3, [50, 60, 70], [⟨0, 100, 50, 5, 6⟩], 2⟩ 350
    (by decide) (by norm_num [getColumnCount])

/-- Claim C7: with itemWidth 100 and gutterX -200 (so itemWidth + gutterX
= -100 <= 0) and container width 340, initialization does NOT surface a
configuration error: `_getColumnCount` returns the degenerate count -2,
the height array is silently rebuilt empty (0 columns, stored count 0)
and the pack/render pass still runs — every embedded operation is total
because the source has no error path at all. -/
theorem c7_silent_degenerate_config :
    getColumnCount 340 100 (-200) = -2 ∧
    init 100 (-200) 10 340 [⟨0, 100, 50, 0, 0⟩] =
      ⟨some 340, 100, -200, 10, some 0, [], [⟨0, 100, 50, 100, 0⟩], 1⟩ := by
  have hc : getColumnCount 340 100 (-200) = -2 := by norm_num [getColumnCount]
  refine ⟨hc, ?_⟩
  have hstep1 : init 100 (-200) 10 340 [(⟨0, 100, 50, 0, 0⟩ : Child)] =
      containerWidthChanged ⟨some 340, 100, -200, 10, none, [], [⟨0, 100, 50, 0, 0⟩], 0⟩ := by
    rw [init, initState, updateContainerWidth, if_neg (by simp)]
  have hstep2 : containerWidthChanged
        ⟨some 340, 100, -200, 10, none, [], [⟨0, 100, 50, 0, 0⟩], 0⟩ =
      columnCountChanged ⟨some 340, 100, -200, 10, some (-2), [], [⟨0, 100, 50, 0, 0⟩], 0⟩ := by
    rw [containerWidthChanged]
    dsimp only [Option.getD_some]
    rw [hc, if_neg (by simp)]
  have hstep3 : columnCountChanged
        ⟨some 340, 100, -200, 10, some (-2), [], [⟨0, 100, 50, 0, 0⟩], 0⟩ =
      update ⟨some 340, 100, -200, 10, some 0, [], [⟨0, 100, 50, 0, 0⟩], 0⟩ := by
    rw [columnCountChanged, resetColHeights]
    dsimp only [Option.getD_some]
    rw [hc, show Int.toNat (-2) = 0 from by decide]
    rfl
  have hstep4 : update ⟨some 340, 100, -200, 10, some 0, [], [⟨0, 100, 50, 0, 0⟩], 0⟩ =
      ⟨some 340, 100, -200, 10, some 0, [], [⟨0, 100, 50, 100, 0⟩], 1⟩ := by
    have hpc : packChild (-200) 10 [] (⟨0, 100, 50, 0, 0⟩ : Child) =
        (⟨0, 100, 50, 100, 0⟩, []) := by
      rw [packChild, show fitMinIndex [] = -1 from rfl,
        show Int.toNat (-1) = 0 from by decide]
      norm_num
    simp only [update, packList, hpc]
  rw [hstep1, hstep2, hstep3, hstep4]

/-- Claim C8: a negative measured item height is neither rejected at
registration (`_addNewChild` stores it as-is) nor excluded from packing
(`_packChild` packs the item and drives column 0 from 30 down to -10):
the invalid measurement reaches the shared height mapping. -/
theorem c8_invalid_measurement_not_isolated :
    addNewChild [] 0 100 (-50) = [⟨0, 100, -50, 0, 0⟩] ∧
    (packChild 20 10 [30, 40] ⟨0, 100, -50, 0, 0⟩).1.y = 30 ∧
    (packChild 20 10 [30, 40] ⟨0, 100, -50, 0, 0⟩).2 = [-10, 40] := by
  have hpc : packChild 20 10 [30, 40] (⟨0, 100, -50, 0, 0⟩ : Child) =
      (⟨0, 100, -50, 0, 30⟩, [-10, 40]) := by
    rw [packChild, show fitMinIndex [30, 40] = 0 from by decide]
    norm_num
  exact ⟨rfl, by rw [hpc], by rw [hpc]⟩

/-- Claim C10 (amended): a pack pass over a non-empty height array adds
exactly the sum of (height + gutterY) over the items to the total column
height — `update()` never zeroes the heights — and consequently two
consecutive `update()` calls differ in the height mapping whenever that
per-pass sum is non-zero (for a zero per-pass sum, e.g. all heights and
gutterY zero, the two calls coincide: see the counterexample). -/
theorem c10_update_not_idempotent :
    (∀ (gutterX gutterY : ℚ) (a : List ℚ) (cs : List Child), a ≠ [] →
      (packList gutterX gutterY a cs).2.sum =
        a.sum + (cs.map (fun c => c.height + gutterY)).sum) ∧
    ∀ s : PluginState, s.colHeights ≠ [] →
      (s.children.map (fun c => c.height + s.gutterY)).sum ≠ 0 →
      (update (update s)).colHeights ≠ (update s).colHeights := by
  refine ⟨fun gx gy a cs h => packList_sum gx gy cs a h, ?_⟩
  intro s h hsum heq
  have hne1 : (update s).colHeights ≠ [] := by
    show (packList s.gutterX s.gutterY s.colHeights s.children).2 ≠ []
    rw [← List.length_pos, packList_colHeights_length]
    exact List.length_pos.mpr h
  have e2 : (update (update s)).colHeights.sum =
      (update s).colHeights.sum +
        ((update s).children.map (fun c => c.height + s.gutterY)).sum :=
    packList_sum s.gutterX s.gutterY (update s).children (update s).colHeights hne1
  have e3 : ((update s).children.map (fun c => c.height + s.gutterY)).sum =
      (s.children.map (fun c => c.height + s.gutterY)).sum := by
    show ((packList s.gutterX s.gutterY s.colHeights s.children).1.map
        (fun c => c.height + s.gutterY)).sum =
      (s.children.map (fun c => c.height + s.gutterY)).sum
    rw [packList_map_height]
  rw [heq, e3] at e2
  exact hsum (by linarith)

/-- Claim C10 counterexample: an instance with one column, one item of
height 0 and gutterY 0 has idempotent consecutive `update()` calls — the
height mapping and the children (with coordinates) are identical after
the first and the second pass. -/
theorem c10_counterexample :
    (update (update ⟨some 340, 100, 0, 0, some 1, [0], [⟨0, 100, 0, 0, 0⟩], 0⟩)).colHeights =
      (update ⟨some 340, 100, 0, 0, some 1, [0], [⟨0, 100, 0, 0, 0⟩], 0⟩).colHeights ∧
    (update (update ⟨some 340, 100, 0, 0, some 1, [0], [⟨0, 100, 0, 0, 0⟩], 0⟩)).children =
      (update ⟨some 340, 100, 0, 0, some 1, [0], [⟨0, 100, 0, 0, 0⟩], 0⟩).children := by
  have hpc : packChild 0 0 [0] (⟨0, 100, 0, 0, 0⟩ : Child) = (⟨0, 100, 0, 0, 0⟩, [0]) := by
    rw [packChild, show fitMinIndex [0] = 0 from by decide]
    norm_num
  have hu : ∀ n : Nat,
      update ⟨some 340, 100, 0, 0, some 1, [0], [⟨0, 100, 0, 0, 0⟩], n⟩ =
        ⟨some 340, 100, 0, 0, some 1, [0], [⟨0, 100, 0, 0, 0⟩], n + 1⟩ := by
    intro n
    simp only [update, packList, hpc]
  rw [hu 0, hu 1]
  exact ⟨rfl, rfl⟩

/-- Witness for C10 at one column of height 0 and one item of height 50. -/
theorem c10_witness :
    (packList 20 10 [0] [(⟨0, 100, 50, 0, 0⟩ : Child)]).2.sum =
      ([0] : List ℚ).sum +
        ([(⟨0, 100, 50, 0, 0⟩ : Child)].map (fun c => c.height + 10)).sum :=
  c10_update_not_idempotent.1 20 10 [0] [⟨0, 100, 50, 0, 0⟩] (by decide)

end Shapeshift
